import Mathlib

/-!
Shallow embedding of the core of `api.py` from the Ticket-Generator-With-QR
repository: the MongoDB-backed ticket store, the issuance / verification /
update processing functions, the background job worker, and the pagination
endpoint.  The Mongo collection is modelled as a `List Ticket` in insertion
(natural) order; `find_one` is `List.find?`, `find_one_and_update` updates the
first matching document in place, and `insert_one` appends.  Timestamps are
`Nat`; Python `datetime.now()` becomes an explicit `now` argument.  Python
dicts (insertion ordered) become association lists `List (String × String)`.
Effectful collaborator calls (image save, SMTP) become `Except String`
parameters describing their outcome.
-/

namespace TicketGen

/-- Python `str.upper()` (ASCII): upper-case every character. -/
def pyUpper (s : String) : String :=
  String.mk (s.data.map Char.toUpper)

/-- Python `str.lower()` (ASCII): lower-case every character. -/
def pyLower (s : String) : String :=
  String.mk (s.data.map Char.toLower)

/-- Whitespace characters for `str.strip()`. -/
def isSpaceChar (c : Char) : Bool :=
  c == ' ' || c == '\t' || c == '\n' || c == '\r'

/-- Python `str.strip()`: drop leading and trailing whitespace. -/
def pyStrip (s : String) : String :=
  String.mk
    (((s.data.dropWhile isSpaceChar).reverse.dropWhile isSpaceChar).reverse)

/-- `needle` is a prefix of `hs` (on character lists). -/
def charsStartWith : List Char → List Char → Bool
  | _, [] => true
  | [], _ :: _ => false
  | c :: cs, d :: ds => c == d && charsStartWith cs ds

/-- `needle` occurs as a contiguous run inside the character list. -/
def charsContain (needle : List Char) : List Char → Bool
  | [] => needle.isEmpty
  | c :: cs => charsStartWith (c :: cs) needle || charsContain needle cs

/-- Python substring containment `needle in haystack`. -/
def pyContains (haystack needle : String) : Bool :=
  charsContain needle.data haystack.data

/-- A document of the `event_registration` collection, as written by
`save_ticket_in_db` (api.py lines 78–96). -/
structure Ticket where
  ticket_number : String
  timestamp : Nat
  ticket_details : List (String × String)
  verified : Bool
  attendance_date_time : Option Nat
deriving DecidableEq, Repr

/-- `save_ticket_in_db` (api.py 78–96): insert a fresh document with
`verified = False` and `attendance_date_time = None`.  Returns the document
and the new collection state (`insert_one` appends in natural order). -/
def save_ticket_in_db (now : Nat) (ticket_number : String)
    (ticket_details : List (String × String)) (store : List Ticket) :
    Ticket × List Ticket :=
  let document : Ticket :=
    { ticket_number := ticket_number
      timestamp := now
      ticket_details := ticket_details
      verified := false
      attendance_date_time := none }
  (document, store ++ [document])

/-- `load_ticket_by_number` (api.py 98–100): `find_one` on `ticket_number`. -/
def load_ticket_by_number (ticket_number : String) (store : List Ticket) :
    Option Ticket :=
  store.find? (fun t => t.ticket_number == ticket_number)

/-- The `$set` document built by `update_ticket_in_db` (api.py 111–113),
applied to one ticket: always sets `verified` and `attendance_date_time`;
replaces `ticket_details` only when `additional_data` is a non-empty dict
(Python `if additional_data and isinstance(additional_data, dict)`). -/
def applyUpdate (now : Nat) (additional_data : Option (List (String × String)))
    (t : Ticket) : Ticket :=
  { t with
    verified := true
    attendance_date_time := some now
    ticket_details :=
      match additional_data with
      | some d => if d.isEmpty then t.ticket_details else d
      | none => t.ticket_details }

/-- `find_one_and_update` on a list: update the first document satisfying `p`
with `f`, returning the AFTER document (`ReturnDocument.AFTER`) and the new
collection state. -/
def updateFirst (p : Ticket → Bool) (f : Ticket → Ticket) :
    List Ticket → Option Ticket × List Ticket
  | [] => (none, [])
  | t :: ts =>
    if p t then (some (f t), f t :: ts)
    else
      let r := updateFirst p f ts
      (r.1, t :: r.2)

/-- `update_ticket_in_db` (api.py 102–119): atomically set `verified = True`
and `attendance_date_time = now` on the first document with the given
`ticket_number`, optionally replacing `ticket_details`; returns the updated
document (or `none` when no document matches). -/
def update_ticket_in_db (now : Nat) (ticket_number : String)
    (additional_data : Option (List (String × String)))
    (store : List Ticket) : Option Ticket × List Ticket :=
  updateFirst (fun t => t.ticket_number == ticket_number)
    (applyUpdate now additional_data) store

/-- Outcome of `process_verify_ticket` (api.py 297–321), mirroring the JSON
bodies it returns. -/
inductive VerifyResult where
  | missingField
  | notFound
  | alreadyVerified (ticket_details : List (String × String))
  | valid (ticket_details : List (String × String))
deriving DecidableEq, Repr

/-- `process_verify_ticket` (api.py 297–321).  Returns the response together
with its HTTP status code, and the resulting store. -/
def process_verify_ticket (now : Nat) (ticket_number : String)
    (store : List Ticket) : (VerifyResult × Nat) × List Ticket :=
  let tn := pyStrip ticket_number
  if tn = "" then ((.missingField, 400), store)
  else
    match load_ticket_by_number tn store with
    | none => ((.notFound, 404), store)
    | some ticket =>
      if ticket.verified then
        ((.alreadyVerified ticket.ticket_details, 200), store)
      else
        let r := update_ticket_in_db now tn none store
        match r.1 with
        | some updated => ((.valid updated.ticket_details, 200), r.2)
        | none => ((.notFound, 404), r.2)

/-- Outcome of `process_update_ticket` (api.py 323–341). -/
inductive UpdateResult where
  | missingField
  | notFound
  | failed
  | updated (ticket_details : List (String × String))
deriving DecidableEq, Repr

/-- `process_update_ticket` (api.py 323–341): drive the ticket to verified,
passing the request's `attendance_data` through to `update_ticket_in_db`. -/
def process_update_ticket (now : Nat) (ticket_number : String)
    (attendance_data : List (String × String))
    (store : List Ticket) : (UpdateResult × Nat) × List Ticket :=
  let tn := pyStrip ticket_number
  if tn = "" then ((.missingField, 400), store)
  else
    let r := update_ticket_in_db now tn (some attendance_data) store
    match r.1 with
    | none => ((.notFound, 404), r.2)
    | some u =>
      if u.verified then ((.updated u.ticket_details, 200), r.2)
      else ((.failed, 500), r.2)

/-- Dict lookup with a default, Python `d.get(k, default)` on a string dict. -/
def lookupD (m : List (String × String)) (k d : String) : String :=
  match m.find? (fun kv => kv.1 == k) with
  | some kv => kv.2
  | none => d

/-- Python dict assignment `d[k] = v` on an insertion-ordered dict: update in
place when the key exists, append otherwise. -/
def dictSet (m : List (String × String)) (k v : String) :
    List (String × String) :=
  if m.any (fun kv => kv.1 == k) then
    m.map (fun kv => if kv.1 == k then (k, v) else kv)
  else m ++ [(k, v)]

/-- The QR payload built at api.py line 178:
one line per key of the (merged) details dict, in insertion order,
upper-cased key, `KEY: value`, joined by newlines. -/
def qr_data_str (ticket_details : List (String × String)) : String :=
  String.intercalate "\n"
    (ticket_details.map (fun kv => pyUpper kv.1 ++ ": " ++ kv.2))

/-- `send_email_with_attachment` (api.py 134–164).  The whole SMTP interaction
is abstracted by its outcome `smtp : Except String Unit`; the function
catches every exception and always returns a status string. -/
def send_email_with_attachment (recipient attachment_path : String)
    (smtp : Except String Unit) : String :=
  match smtp with
  | .ok _ => "Email sent to " ++ recipient ++ " with attachment " ++ attachment_path
  | .error e => "Failed to send email to " ++ recipient ++ ": " ++ e

/-- `generate_ticket_qr` (api.py 166–213).  `artifactSave` is the outcome of
`template_image.save(output_path)`; an exception there propagates
(`Except.error`) and the store insert — which the source performs only after
the save — does not happen.  Returns
`(ticket_number, output_path, ticket_details)` as the source does. -/
def generate_ticket_qr (now : Nat) (ticket_number : String)
    (artifactSave : Except String Unit)
    (ticket_details : List (String × String)) (store : List Ticket) :
    Except String (String × String × List (String × String)) × List Ticket :=
  let details := dictSet ticket_details "ticket_number" ticket_number
  let output_path :=
    lookupD details "event" "EVENT" ++ "_" ++
    lookupD details "roll_no" "UNKNOWN" ++ "_" ++ ticket_number ++ ".png"
  match artifactSave with
  | .error e => (.error e, store)
  | .ok _ =>
    (.ok (ticket_number, output_path, details),
     (save_ticket_in_db now ticket_number details store).2)

/-- The fields of a `/generate_ticket` request that the processing logic
reads (api.py 228–295).  `mail_user`/`mail_password` are the
`mail_credentials` entries; `none` means the key is absent so the
environment default applies. -/
structure GenRequest where
  email : String
  send_email : Bool
  mail_user : Option String
  mail_password : Option String
  ticket_details : List (String × String)
deriving Repr

/-- The 200 response body of `process_generate_ticket` (api.py 288–294). -/
structure GenResponse where
  email : String
  email_status : String
  ticket_number : String
  ticket_url : String
  qr_data : List (String × String)
deriving DecidableEq, Repr

/-- A processing outcome: either an error body or the success body. -/
inductive GenResult where
  | failure (msg : String)
  | success (resp : GenResponse)
deriving DecidableEq, Repr

/-- Python truthiness of an optional string (absent and empty are falsy). -/
def truthy : Option String → Bool
  | some s => s ≠ ""
  | none => false

/-- `mail_credentials.get(key, DEFAULT)`: request value when the key is
present, environment default otherwise. -/
def credOr (req env : Option String) : Option String :=
  match req with
  | some s => some s
  | none => env

/-- `process_generate_ticket` (api.py 228–295).  `envUser`/`envPassword` are
`DEFAULT_EMAIL_USER`/`DEFAULT_EMAIL_PASSWORD`; `template` is the outcome of
template acquisition (download or local load — a failure yields a 400
response); `artifactSave` and `smtp` as above.  Returns the `Except`-wrapped
(result, status) pair — `Except.error` is an uncaught Python exception —
together with the resulting store. -/
def process_generate_ticket (envUser envPassword : Option String)
    (template : Except String Unit) (artifactSave : Except String Unit)
    (smtp : Except String Unit) (now : Nat) (ticket_number : String)
    (req : GenRequest) (store : List Ticket) :
    Except String (GenResult × Nat) × List Ticket :=
  if (pyStrip req.email) = "" then
    (.ok (.failure "Missing required field: email", 400), store)
  else
    match template with
    | .error e => (.ok (.failure e, 400), store)
    | .ok _ =>
      let r := generate_ticket_qr now ticket_number artifactSave
        req.ticket_details store
      match r.1 with
      | .error e => (.error e, r.2)
      | .ok (number, output_path, details) =>
        let email_user_cred := credOr req.mail_user envUser
        let email_password := credOr req.mail_password envPassword
        let email_status :=
          if req.send_email && truthy email_user_cred && truthy email_password
          then send_email_with_attachment (pyStrip req.email) output_path smtp
          else "Not sent"
        (.ok (.success
          { email := (pyStrip req.email)
            email_status := email_status
            ticket_number := number
            ticket_url := "/generated/" ++ output_path
            qr_data := details }, 200), r.2)

/-- Job status values of the `job_queue` collection (api.py 345–399). -/
inductive JobStatus where
  | queued
  | processing
  | completed
  | error
deriving DecidableEq, Repr

/-- A `job_queue` document.  `data` is the request payload (abstract), and
`result` mirrors the job's `result` field: `Except.error e` stands for the
`\x7b"error": str(e)\x7d` body written by the exception handler, `Except.ok`
for a result the processing function returned normally. -/
structure Job (α β : Type) where
  data : α
  status : JobStatus
  result : Option (Except String β)
deriving Repr

/-- One processed job (api.py 376–399): run the processing function — an
exception (`Except.error`) is caught, recorded in `result` and forces status
500 — then set status `completed` iff the status code is 200, else `error`. -/
def finishJob {α β : Type} (process : α → Except String (β × Nat))
    (j : Job α β) : Job α β :=
  match process j.data with
  | .ok (r, c) =>
    { j with status := if c = 200 then .completed else .error
             result := some (.ok r) }
  | .error e => { j with status := .error, result := some (.error e) }

/-- One iteration of the `job_processor` loop (api.py 360–399): claim the
first queued job (creation order) and process it to completion; leave every
other job untouched.  Totality of this function is the embedding of the fact
that the loop body catches every exception and keeps polling. -/
def stepWorker {α β : Type} (process : α → Except String (β × Nat)) :
    List (Job α β) → List (Job α β)
  | [] => []
  | j :: js =>
    if j.status = .queued then finishJob process j :: js
    else j :: stepWorker process js

/-- The post-job throttle condition (api.py 402–404): the worker sleeps a
random 30–45 s delay exactly when the job was `generate_ticket`, the payload
set `send_email`, the result dict has an `email_status` key (`none` models a
result without one), and the lower-cased status contains the substring
`sent`. -/
def delay_triggered (job_type : String) (send_email : Bool)
    (email_status : Option String) : Bool :=
  job_type == "generate_ticket" && send_email &&
    (match email_status with
     | some s => pyContains (pyLower s) "sent"
     | none => false)

/-- `/tickets` pagination (api.py 532–569): `skip = (page-1)*per_page`,
`find().skip(skip).limit(per_page)` over natural (insertion) order, plus
`total_tickets` and `total_pages`.  Returns (page of tickets, total_tickets,
total_pages). -/
def list_tickets (page per_page : Nat) (store : List Ticket) :
    List Ticket × Nat × Nat :=
  let skip := (page - 1) * per_page
  ((store.drop skip).take per_page, store.length,
   (store.length + per_page - 1) / per_page)

/-- The store-mutating operations reachable through the job processor:
insert (`save_ticket_in_db`, as called by issuance), verify
(`process_verify_ticket`) and update (`process_update_ticket`). -/
inductive Op where
  | insert (now : Nat) (ticket_number : String)
      (details : List (String × String))
  | verify (now : Nat) (ticket_number : String)
  | update (now : Nat) (ticket_number : String)
      (attendance_data : List (String × String))
deriving Repr

/-- Effect of one operation on the store. -/
def applyOp : Op → List Ticket → List Ticket
  | .insert now tn d, s => (save_ticket_in_db now tn d s).2
  | .verify now tn, s => (process_verify_ticket now tn s).2
  | .update now tn a, s => (process_update_ticket now tn a s).2

/-- Store reached from the empty store by a sequence of operations. -/
def runOps (ops : List Op) (s : List Ticket) : List Ticket :=
  ops.foldl (fun s op => applyOp op s) s

/-! ## Helper lemmas about the store primitives -/

theorem updateFirst_of_find?_none (p : Ticket → Bool) (f : Ticket → Ticket) :
    ∀ l : List Ticket, l.find? p = none → updateFirst p f l = (none, l) := by
  intro l h
  induction l with
  | nil => rfl
  | cons t ts ih =>
    cases hp : p t with
    | true => rw [List.find?_cons_of_pos ts hp] at h; exact absurd h (by simp)
    | false =>
      rw [List.find?_cons_of_neg ts (by simp [hp])] at h
      simp [updateFirst, hp, ih h]

theorem find?_of_decomp (p : Ticket → Bool) (pre : List Ticket) (t : Ticket)
    (post : List Ticket) (hpre : ∀ u ∈ pre, p u = false) (hp : p t = true) :
    (pre ++ t :: post).find? p = some t := by
  induction pre with
  | nil => simpa using List.find?_cons_of_pos post hp
  | cons u us ih =>
    have hu : p u = false := hpre u (by simp)
    rw [List.cons_append, List.find?_cons_of_neg _ (by simp [hu])]
    exact ih (fun v hv => hpre v (by simp [hv]))

theorem updateFirst_of_decomp (p : Ticket → Bool) (f : Ticket → Ticket)
    (pre : List Ticket) (t : Ticket) (post : List Ticket)
    (hpre : ∀ u ∈ pre, p u = false) (hp : p t = true) :
    updateFirst p f (pre ++ t :: post) = (some (f t), pre ++ f t :: post) := by
  induction pre with
  | nil => simp [updateFirst, hp]
  | cons u us ih =>
    have hu : p u = false := hpre u (by simp)
    have := ih (fun v hv => hpre v (by simp [hv]))
    simp [updateFirst, hu, this]

theorem updateFirst_mem (p : Ticket → Bool) (f : Ticket → Ticket) :
    ∀ l : List Ticket, ∀ x ∈ (updateFirst p f l).2,
      x ∈ l ∨ ∃ y ∈ l, x = f y := by
  intro l
  induction l with
  | nil => simp [updateFirst]
  | cons t ts ih =>
    intro x hx
    by_cases hp : p t = true
    · simp [updateFirst, hp] at hx
      rcases hx with h | h
      · exact Or.inr ⟨t, by simp, h⟩
      · exact Or.inl (by simp [h])
    · simp [updateFirst, Bool.of_not_eq_true hp] at hx
      rcases hx with h | h
      · exact Or.inl (by simp [h])
      · rcases ih x h with h' | ⟨y, hy, hxy⟩
        · exact Or.inl (by simp [h'])
        · exact Or.inr ⟨y, by simp [hy], hxy⟩

theorem updateFirst_getElem? (p : Ticket → Bool) (f : Ticket → Ticket) :
    ∀ (l : List Ticket) (i : Nat),
      (updateFirst p f l).2[i]? = l[i]? ∨
      (updateFirst p f l).2[i]? = (l[i]?).map f := by
  intro l
  induction l with
  | nil => intro i; left; simp [updateFirst]
  | cons t ts ih =>
    intro i
    by_cases hp : p t = true
    · cases i with
      | zero => right; simp [updateFirst, hp]
      | succ j => left; simp [updateFirst, hp]
    · cases i with
      | zero => left; simp [updateFirst, Bool.of_not_eq_true hp]
      | succ j =>
        rcases ih j with h | h
        · left; simpa [updateFirst, Bool.of_not_eq_true hp] using h
        · right; simpa [updateFirst, Bool.of_not_eq_true hp] using h

theorem updateFirst_length (p : Ticket → Bool) (f : Ticket → Ticket) :
    ∀ l : List Ticket, (updateFirst p f l).2.length = l.length := by
  intro l
  induction l with
  | nil => rfl
  | cons t ts ih =>
    by_cases hp : p t = true
    · simp [updateFirst, hp]
    · simp [updateFirst, Bool.of_not_eq_true hp, ih]

/-! ## Claim theorems -/

/-- C1: for every store state and ticket_number, `process_verify_ticket`
returns NotFound with the store unmutated when no ticket with that (stripped)
number exists; returns AlreadyVerified with the ticket's current details and
the store unmutated — attendance_time unchanged — when the ticket is already
verified; and otherwise performs the transition, setting `verified = true`
and `attendance_date_time = now` on that ticket while leaving every other
record in place, returning Valid with the updated ticket's details. -/
theorem c1_verify_semantics (now : Nat) (ticket_number : String)
    (store : List Ticket) (htn : pyStrip ticket_number ≠ "") :
    (load_ticket_by_number (pyStrip ticket_number) store = none →
      process_verify_ticket now ticket_number store
        = ((.notFound, 404), store)) ∧
    (∀ t, load_ticket_by_number (pyStrip ticket_number) store = some t →
      t.verified = true →
      process_verify_ticket now ticket_number store
        = ((.alreadyVerified t.ticket_details, 200), store)) ∧
    (∀ pre t post, store = pre ++ t :: post →
      (∀ u ∈ pre, (u.ticket_number == pyStrip ticket_number) = false) →
      t.ticket_number = pyStrip ticket_number →
      t.verified = false →
      process_verify_ticket now ticket_number store
        = ((.valid t.ticket_details, 200),
           pre ++ { t with verified := true,
                           attendance_date_time := some now } :: post)) := by
  refine ⟨?_, ?_, ?_⟩
  · intro h
    simp [process_verify_ticket, htn, h]
  · intro t h hv
    simp [process_verify_ticket, htn, h, hv]
  · intro pre t post hs hpre htn' hv
    subst hs
    have hfind : load_ticket_by_number (pyStrip ticket_number)
        (pre ++ t :: post) = some t :=
      find?_of_decomp _ pre t post hpre (by simp [htn'])
    have hupd := updateFirst_of_decomp
      (fun u => u.ticket_number == pyStrip ticket_number)
      (applyUpdate now none) pre t post hpre (by simp [htn'])
    simp only [process_verify_ticket, htn, if_false, hfind, hv,
      update_ticket_in_db, hupd, reduceIte, Bool.false_eq_true]
    simp [applyUpdate]

/-- Witness for C1 at a concrete store: verifying the unverified ticket
`"A1"` performs the transition and returns Valid with its details. -/
theorem c1_witness :
    process_verify_ticket 5 "A1"
      [{ ticket_number := "A1", timestamp := 0,
         ticket_details := [("name", "Alice")], verified := false,
         attendance_date_time := none }]
      = ((.valid [("name", "Alice")], 200),
         [{ ticket_number := "A1", timestamp := 0,
            ticket_details := [("name", "Alice")], verified := true,
            attendance_date_time := some 5 }]) := by
  have h := (c1_verify_semantics 5 "A1"
    [{ ticket_number := "A1", timestamp := 0,
       ticket_details := [("name", "Alice")], verified := false,
       attendance_date_time := none }] (by decide)).2.2
    [] { ticket_number := "A1", timestamp := 0,
         ticket_details := [("name", "Alice")], verified := false,
         attendance_date_time := none } [] rfl (by simp) (by decide) rfl
  simpa using h

/-- C2, counterexample: the claim says the store-level mark-verified
operation is an idempotent no-op on an already-verified ticket, returning the
existing record unchanged with `attendance_time` and `details` untouched.
On the code, `update_ticket_in_db` at time 7 on a ticket verified at time 5
returns a record with `attendance_date_time = 7` and replaced details — not
the existing record. -/
theorem c2_counterexample :
    (update_ticket_in_db 7 "A1" (some [("guest", "Bob")])
        [{ ticket_number := "A1", timestamp := 0,
           ticket_details := [("name", "Alice")], verified := true,
           attendance_date_time := some 5 }]).1
      = some { ticket_number := "A1", timestamp := 0,
               ticket_details := [("guest", "Bob")], verified := true,
               attendance_date_time := some 7 } ∧
    (update_ticket_in_db 7 "A1" (some [("guest", "Bob")])
        [{ ticket_number := "A1", timestamp := 0,
           ticket_details := [("name", "Alice")], verified := true,
           attendance_date_time := some 5 }]).1
      ≠ some { ticket_number := "A1", timestamp := 0,
               ticket_details := [("name", "Alice")], verified := true,
               attendance_date_time := some 5 } := by
  constructor
  · rfl
  · decide

/-- C2, amended: `update_ticket_in_db` unconditionally rewrites the first
matching record — including one that is already verified — setting
`verified = true` and `attendance_date_time` to the current time, and
replacing `ticket_details` exactly when `additional_data` is a non-empty
mapping; it returns the rewritten record (`none`, with the store unchanged,
when no record matches).  The already-verified idempotent no-op lives in
`process_verify_ticket`, not in this store-level operation. -/
theorem c2_update_unconditional (now : Nat) (tn : String)
    (additional_data : Option (List (String × String)))
    (store : List Ticket) :
    (store.find? (fun u => u.ticket_number == tn) = none →
      update_ticket_in_db now tn additional_data store = (none, store)) ∧
    (∀ pre t post, store = pre ++ t :: post →
      (∀ u ∈ pre, (u.ticket_number == tn) = false) →
      t.ticket_number = tn →
      update_ticket_in_db now tn additional_data store
        = (some (applyUpdate now additional_data t),
           pre ++ applyUpdate now additional_data t :: post) ∧
      (applyUpdate now additional_data t).verified = true ∧
      (applyUpdate now additional_data t).attendance_date_time = some now ∧
      (∀ l, additional_data = some l → l ≠ [] →
        (applyUpdate now additional_data t).ticket_details = l) ∧
      (additional_data = none →
        (applyUpdate now additional_data t).ticket_details
          = t.ticket_details)) := by
  constructor
  · intro h
    exact updateFirst_of_find?_none _ _ store h
  · intro pre t post hs hpre ht
    subst hs
    refine ⟨updateFirst_of_decomp _ _ pre t post hpre (by simp [ht]),
      rfl, rfl, ?_, ?_⟩
    · intro l hl hne
      subst hl
      simp [applyUpdate, hne]
    · intro hl
      subst hl
      rfl

/-- Witness for C2's amended theorem: at time 7, on a store whose only
ticket is already verified at time 5, the store-level operation rewrites the
record with the fresh attendance time and the caller-supplied details. -/
theorem c2_witness :
    update_ticket_in_db 7 "A1" (some [("guest", "Bob")])
      [{ ticket_number := "A1", timestamp := 0,
         ticket_details := [("name", "Alice")], verified := true,
         attendance_date_time := some 5 }]
      = (some { ticket_number := "A1", timestamp := 0,
                ticket_details := [("guest", "Bob")], verified := true,
                attendance_date_time := some 7 },
         [{ ticket_number := "A1", timestamp := 0,
            ticket_details := [("guest", "Bob")], verified := true,
            attendance_date_time := some 7 }]) := by
  have h := ((c2_update_unconditional 7 "A1" (some [("guest", "Bob")])
    [{ ticket_number := "A1", timestamp := 0,
       ticket_details := [("name", "Alice")], verified := true,
       attendance_date_time := some 5 }]).2
    [] { ticket_number := "A1", timestamp := 0,
         ticket_details := [("name", "Alice")], verified := true,
         attendance_date_time := some 5 } [] rfl (by simp) (by decide)).1
  simpa [applyUpdate] using h

/-- C4, counterexample: the claim says update replaces the details mapping
entirely with `attendance_data` for every mapping.  With the empty mapping,
`process_update_ticket` leaves the details `[("name", "Alice")]` in place
(Python `if additional_data and isinstance(additional_data, dict)` skips the
replacement for a falsy empty dict), instead of replacing them with `[]`. -/
theorem c4_counterexample :
    process_update_ticket 7 "A1" []
      [{ ticket_number := "A1", timestamp := 0,
         ticket_details := [("name", "Alice")], verified := false,
         attendance_date_time := none }]
      = ((.updated [("name", "Alice")], 200),
         [{ ticket_number := "A1", timestamp := 0,
            ticket_details := [("name", "Alice")], verified := true,
            attendance_date_time := some 7 }]) ∧
    ([("name", "Alice")] : List (String × String)) ≠ [] := by
  constructor
  · rfl
  · decide

/-- C4, amended: for an existing ticket, `process_update_ticket` replaces the
details mapping entirely with `attendance_data` whenever `attendance_data` is
non-empty (and drives the ticket to verified); with an empty `attendance_data`
the details are left unchanged (though the ticket is still driven to
verified).  `process_verify_ticket` (no attendance data) leaves the details
mapping unchanged, altering only `verified` and `attendance_date_time`. -/
theorem c4_details_replace_vs_merge (now : Nat) (ticket_number : String)
    (pre : List Ticket) (t : Ticket) (post : List Ticket)
    (attendance_data : List (String × String))
    (htn : pyStrip ticket_number ≠ "")
    (hpre : ∀ u ∈ pre, (u.ticket_number == pyStrip ticket_number) = false)
    (ht : t.ticket_number = pyStrip ticket_number) :
    (attendance_data ≠ [] →
      process_update_ticket now ticket_number attendance_data
          (pre ++ t :: post)
        = ((.updated attendance_data, 200),
           pre ++ { t with verified := true,
                           attendance_date_time := some now,
                           ticket_details := attendance_data } :: post)) ∧
    (attendance_data = [] →
      process_update_ticket now ticket_number attendance_data
          (pre ++ t :: post)
        = ((.updated t.ticket_details, 200),
           pre ++ { t with verified := true,
                           attendance_date_time := some now } :: post)) ∧
    (t.verified = false →
      (process_verify_ticket now ticket_number (pre ++ t :: post)).2
        = pre ++ { t with verified := true,
                          attendance_date_time := some now } :: post) := by
  have hupd := fun ad => updateFirst_of_decomp
    (fun u => u.ticket_number == pyStrip ticket_number)
    (applyUpdate now ad) pre t post hpre (by simp [ht])
  refine ⟨?_, ?_, ?_⟩
  · intro hne
    simp only [process_update_ticket, htn, if_false, update_ticket_in_db,
      hupd (some attendance_data)]
    simp [applyUpdate, hne]
  · intro he
    subst he
    simp only [process_update_ticket, htn, if_false, update_ticket_in_db,
      hupd (some [])]
    simp [applyUpdate]
  · intro hv
    have hfind : load_ticket_by_number (pyStrip ticket_number)
        (pre ++ t :: post) = some t :=
      find?_of_decomp _ pre t post hpre (by simp [ht])
    simp only [process_verify_ticket, htn, if_false, hfind, hv,
      update_ticket_in_db, hupd none, Bool.false_eq_true, reduceIte]
    simp [applyUpdate]

/-- Witness for C4's amended theorem: non-empty attendance data replaces the
details entirely while marking the ticket verified. -/
theorem c4_witness :
    process_update_ticket 9 "A1" [("seat", "12")]
      [{ ticket_number := "A1", timestamp := 0,
         ticket_details := [("name", "Alice")], verified := false,
         attendance_date_time := none }]
      = ((.updated [("seat", "12")], 200),
         [{ ticket_number := "A1", timestamp := 0,
            ticket_details := [("seat", "12")], verified := true,
            attendance_date_time := some 9 }]) := by
  have h := (c4_details_replace_vs_merge 9 "A1" []
    { ticket_number := "A1", timestamp := 0,
      ticket_details := [("name", "Alice")], verified := false,
      attendance_date_time := none } [] [("seat", "12")]
    (by decide) (by simp) (by decide)).1 (by decide)
  simpa using h

theorem verify_store_cases (now : Nat) (tn : String) (s : List Ticket) :
    (process_verify_ticket now tn s).2 = s ∨
    (process_verify_ticket now tn s).2
      = (update_ticket_in_db now (pyStrip tn) none s).2 := by
  simp only [process_verify_ticket]
  split
  · left; rfl
  · split
    · left; rfl
    · split
      · left; rfl
      · split <;> (right; rfl)

theorem update_store_cases (now : Nat) (tn : String)
    (ad : List (String × String)) (s : List Ticket) :
    (process_update_ticket now tn ad s).2 = s ∨
    (process_update_ticket now tn ad s).2
      = (update_ticket_in_db now (pyStrip tn) (some ad) s).2 := by
  simp only [process_update_ticket]
  split
  · left; rfl
  · split
    · right; rfl
    · split <;> (right; rfl)

theorem inv_applyUpdate (now : Nat)
    (ad : Option (List (String × String))) (t : Ticket) :
    ((applyUpdate now ad t).attendance_date_time).isSome
      = (applyUpdate now ad t).verified := by
  simp [applyUpdate]

theorem inv_applyOp (op : Op) (s : List Ticket)
    (hs : ∀ t ∈ s, t.attendance_date_time.isSome = t.verified) :
    ∀ t ∈ applyOp op s, t.attendance_date_time.isSome = t.verified := by
  have hupd : ∀ now tn ad, ∀ t ∈ (update_ticket_in_db now tn ad s).2,
      t.attendance_date_time.isSome = t.verified := by
    intro now tn ad t ht
    rcases updateFirst_mem _ _ s t ht with h | ⟨y, _, rfl⟩
    · exact hs t h
    · exact inv_applyUpdate now ad y
  cases op with
  | insert now tn d =>
    intro t ht
    simp only [applyOp, save_ticket_in_db, List.mem_append,
      List.mem_singleton] at ht
    rcases ht with h | rfl
    · exact hs t h
    · rfl
  | verify now tn =>
    intro t ht
    rcases verify_store_cases now tn s with h | h
    · exact hs t (h ▸ ht)
    · exact hupd now (pyStrip tn) none t (h ▸ ht)
  | update now tn a =>
    intro t ht
    rcases update_store_cases now tn a s with h | h
    · exact hs t (h ▸ ht)
    · exact hupd now (pyStrip tn) (some a) t (h ▸ ht)

theorem inv_runOps (ops : List Op) :
    ∀ s : List Ticket,
      (∀ t ∈ s, t.attendance_date_time.isSome = t.verified) →
      ∀ t ∈ runOps ops s, t.attendance_date_time.isSome = t.verified := by
  induction ops with
  | nil => intro s hs; exact hs
  | cons op ops ih =>
    intro s hs
    exact ih (applyOp op s) (inv_applyOp op s hs)

/-- C3: for every store reachable from the empty store by any sequence of
insert (`save_ticket_in_db`), verify (`process_verify_ticket`) and update
(`process_update_ticket`) operations, every record satisfies
`attendance_date_time` is non-null iff `verified` is true; and no single
operation ever transitions a record's `verified` flag from true back to
false. -/
theorem c3_attendance_verified_invariant :
    (∀ ops : List Op, ∀ t ∈ runOps ops [],
      t.attendance_date_time.isSome = t.verified) ∧
    (∀ (op : Op) (s : List Ticket) (i : Nat), i < s.length →
      ∀ t, s[i]? = some t → t.verified = true →
      ∃ u, (applyOp op s)[i]? = some u ∧ u.verified = true) := by
  constructor
  · intro ops
    exact inv_runOps ops [] (by simp)
  · intro op s i hi t hit hver
    have hupd : ∀ now tn ad,
        ∃ u, (update_ticket_in_db now tn ad s).2[i]? = some u ∧
          u.verified = true := by
      intro now tn ad
      simp only [update_ticket_in_db]
      rcases updateFirst_getElem?
        (fun u => u.ticket_number == tn) (applyUpdate now ad) s i with h | h
      · exact ⟨t, by rw [h, hit], hver⟩
      · refine ⟨applyUpdate now ad t, ?_, rfl⟩
        rw [h, hit]; rfl
    cases op with
    | insert now tn d =>
      refine ⟨t, ?_, hver⟩
      simp only [applyOp, save_ticket_in_db]
      rw [List.getElem?_append, if_pos hi]
      exact hit
    | verify now tn =>
      rcases verify_store_cases now tn s with h | h
      · exact ⟨t, by simp only [applyOp]; rw [h, hit], hver⟩
      · simp only [applyOp]; rw [h]; exact hupd now (pyStrip tn) none
    | update now tn a =>
      rcases update_store_cases now tn a s with h | h
      · exact ⟨t, by simp only [applyOp]; rw [h, hit], hver⟩
      · simp only [applyOp]; rw [h]; exact hupd now (pyStrip tn) (some a)

/-- Witness for C3: the store reached by inserting ticket `A1` and then
verifying it satisfies the invariant at its single record, and updating an
already-verified record keeps `verified = true`. -/
theorem c3_witness :
    ({ ticket_number := "A1", timestamp := 0,
       ticket_details := [("name", "Alice")], verified := true,
       attendance_date_time := some 3 } : Ticket).attendance_date_time.isSome
      = ({ ticket_number := "A1", timestamp := 0,
           ticket_details := [("name", "Alice")], verified := true,
           attendance_date_time := some 3 } : Ticket).verified ∧
    ((applyOp (Op.update 9 "A1" [])
        [{ ticket_number := "A1", timestamp := 0,
           ticket_details := [("name", "Alice")], verified := true,
           attendance_date_time := some 3 }])[0]?).map Ticket.verified
      = some true := by
  constructor
  · exact c3_attendance_verified_invariant.1
      [Op.insert 0 "A1" [("name", "Alice")], Op.verify 3 "A1"] _ (by decide)
  · obtain ⟨u, hu, huv⟩ := c3_attendance_verified_invariant.2
      (Op.update 9 "A1" [])
      [{ ticket_number := "A1", timestamp := 0,
         ticket_details := [("name", "Alice")], verified := true,
         attendance_date_time := some 3 }] 0 (by decide) _ rfl rfl
    rw [hu]
    simp [huv]

theorem stepWorker_append_of_not_queued {α β : Type}
    (process : α → Except String (β × Nat))
    (pre rest : List (Job α β)) (hpre : ∀ x ∈ pre, x.status ≠ .queued) :
    stepWorker process (pre ++ rest) = pre ++ stepWorker process rest := by
  induction pre with
  | nil => rfl
  | cons j js ih =>
    have hj : ¬j.status = JobStatus.queued := hpre j (by simp)
    simp only [List.cons_append, stepWorker, if_neg hj, List.append_eq]
    rw [ih (fun x hx => hpre x (by simp [hx]))]

/-- C5: when a job's processing function raises (`Except.error e`), the
worker marks exactly that job status `error` with the exception detail in its
`result` field, touching no other job; and the loop does not terminate: the
next iteration skips the errored job and goes on to drain the remaining
queued jobs. -/
theorem c5_worker_survives_exception {α β : Type}
    (process : α → Except String (β × Nat))
    (pre : List (Job α β)) (j : Job α β) (post : List (Job α β)) (e : String)
    (hpre : ∀ x ∈ pre, x.status ≠ .queued)
    (hq : j.status = .queued)
    (he : process j.data = .error e) :
    stepWorker process (pre ++ j :: post)
      = pre ++ { j with status := .error, result := some (.error e) } :: post ∧
    stepWorker process
        (pre ++ { j with status := .error, result := some (.error e) } :: post)
      = pre ++ { j with status := .error, result := some (.error e) }
          :: stepWorker process post := by
  constructor
  · rw [stepWorker_append_of_not_queued process pre _ hpre]
    simp [stepWorker, hq, finishJob, he]
  · rw [stepWorker_append_of_not_queued process pre _ hpre]
    simp [stepWorker]

/-- Witness for C5: a job whose processing raises `boom` is marked error with
the detail, and the worker goes on to complete the next queued job. -/
theorem c5_witness :
    stepWorker (fun d : Nat => if d = 0 then .error "boom"
        else .ok (d, 200))
      [{ data := 0, status := .queued, result := none },
       { data := 1, status := .queued, result := none }]
      = [{ data := 0, status := .error, result := some (.error "boom") },
         { data := 1, status := .queued, result := none }] ∧
    stepWorker (fun d : Nat => if d = 0 then .error "boom"
        else .ok (d, 200))
      [{ data := 0, status := .error, result := some (.error "boom") },
       { data := 1, status := .queued, result := none }]
      = [{ data := 0, status := .error, result := some (.error "boom") },
         { data := 1, status := .completed, result := some (.ok 1) }] := by
  have h := c5_worker_survives_exception
    (fun d : Nat => if d = 0 then .error "boom" else .ok (d, 200))
    [] { data := 0, status := .queued, result := none }
    [{ data := 1, status := .queued, result := none }] "boom"
    (by simp) rfl rfl
  refine ⟨by simpa using h.1, ?_⟩
  have h2 := h.2
  simp only [List.nil_append] at h2
  rw [h2]
  simp [stepWorker, finishJob]

/-- C6: issuance either fully succeeds — with the store record inserted only
after the composite artifact was successfully saved, the ticket number
returned, and any email failure captured only in the informational
`email_status` string — or fails with no partial store record: every error
outcome (validation failure, template failure, artifact exception) leaves
the store exactly as it was.  The status code and the inserted record do not
depend on the SMTP outcome. -/
theorem c6_issuance_atomicity (envUser envPassword : Option String)
    (template artifactSave smtp : Except String Unit) (now : Nat)
    (tn : String) (req : GenRequest) (store : List Ticket) :
    (∀ e, (process_generate_ticket envUser envPassword template artifactSave
        smtp now tn req store).1 = .error e →
      (process_generate_ticket envUser envPassword template artifactSave
        smtp now tn req store).2 = store) ∧
    (∀ g c, (process_generate_ticket envUser envPassword template artifactSave
        smtp now tn req store).1 = .ok (g, c) → c ≠ 200 →
      (process_generate_ticket envUser envPassword template artifactSave
        smtp now tn req store).2 = store) ∧
    (∀ resp, (process_generate_ticket envUser envPassword template
        artifactSave smtp now tn req store).1 = .ok (.success resp, 200) →
      (process_generate_ticket envUser envPassword template artifactSave
          smtp now tn req store).2
        = store ++
          [{ ticket_number := tn, timestamp := now,
             ticket_details := dictSet req.ticket_details "ticket_number" tn,
             verified := false, attendance_date_time := none }] ∧
      resp.ticket_number = tn) ∧
    (∀ smtp₂,
      (process_generate_ticket envUser envPassword template artifactSave
          smtp₂ now tn req store).2
        = (process_generate_ticket envUser envPassword template artifactSave
            smtp now tn req store).2 ∧
      ((∃ resp, (process_generate_ticket envUser envPassword template
          artifactSave smtp now tn req store).1
            = .ok (.success resp, 200)) →
        ∃ resp₂, (process_generate_ticket envUser envPassword template
            artifactSave smtp₂ now tn req store).1
              = .ok (.success resp₂, 200) ∧
          resp₂.ticket_number = tn)) := by
  by_cases hemail : pyStrip req.email = ""
  · refine ⟨?_, ?_, ?_, ?_⟩ <;>
      simp [process_generate_ticket, hemail]
  · rcases template with e | u
    · refine ⟨?_, ?_, ?_, ?_⟩ <;>
        simp [process_generate_ticket, hemail]
    · rcases artifactSave with e2 | u2
      · refine ⟨?_, ?_, ?_, ?_⟩ <;>
          simp [process_generate_ticket, generate_ticket_qr, hemail]
      · refine ⟨?_, ?_, ?_, ?_⟩
        · intro e h
          simp [process_generate_ticket, generate_ticket_qr, hemail] at h
        · intro g c h hc
          simp [process_generate_ticket, generate_ticket_qr, hemail] at h
          exact absurd h.2.symm hc
        · intro resp h
          simp [process_generate_ticket, generate_ticket_qr, hemail] at h
          subst h
          refine ⟨?_, rfl⟩
          simp [process_generate_ticket, generate_ticket_qr, hemail,
            save_ticket_in_db]
        · intro smtp₂
          constructor
          · simp [process_generate_ticket, generate_ticket_qr, hemail]
          · intro _
            simp only [process_generate_ticket, generate_ticket_qr, hemail,
              if_false, reduceIte]
            exact ⟨_, rfl, rfl⟩

/-- Witness for C6: a fully successful issuance with a failing SMTP dispatch
still appends exactly the new record and returns the ticket number. -/
theorem c6_witness :
    (process_generate_ticket (some "u") (some "p") (.ok ()) (.ok ())
        (.error "smtp down") 4 "AB12CD34"
        { email := "a@b.c", send_email := true, mail_user := none,
          mail_password := none, ticket_details := [("name", "Alice")] }
        []).2
      = [{ ticket_number := "AB12CD34", timestamp := 4,
           ticket_details := [("name", "Alice"), ("ticket_number", "AB12CD34")],
           verified := false, attendance_date_time := none }] ∧
    (process_generate_ticket (some "u") (some "p") (.ok ()) (.ok ())
        (.error "smtp down") 4 "AB12CD34"
        { email := "a@b.c", send_email := true, mail_user := none,
          mail_password := none, ticket_details := [("name", "Alice")] }
        []).1
      = .ok (.success
          { email := "a@b.c"
            email_status := "Failed to send email to a@b.c: smtp down"
            ticket_number := "AB12CD34"
            ticket_url := "/generated/EVENT_UNKNOWN_AB12CD34.png"
            qr_data := [("name", "Alice"), ("ticket_number", "AB12CD34")] },
          200) := by
  have h := (c6_issuance_atomicity (some "u") (some "p") (.ok ()) (.ok ())
    (.error "smtp down") 4 "AB12CD34"
    { email := "a@b.c", send_email := true, mail_user := none,
      mail_password := none, ticket_details := [("name", "Alice")] }
    []).2.2.1
    { email := "a@b.c"
      email_status := "Failed to send email to a@b.c: smtp down"
      ticket_number := "AB12CD34"
      ticket_url := "/generated/EVENT_UNKNOWN_AB12CD34.png"
      qr_data := [("name", "Alice"), ("ticket_number", "AB12CD34")] }
    (by rfl)
  exact ⟨by simpa using h.1, by rfl⟩

/-- C7: evaluation of the worker's throttle condition at the failing input.
An issuance job with `send_email = true` and no usable mail credentials gets
`email_status = "Not sent"`; the code's check `"sent" in email_status.lower()`
(api.py 404) is true on `"Not sent"`, so the 30–45 s delay fires even though
no email was attempted — contradicting the comment above it ("Check if the
email_status indicates that an email was sent successfully").  The delay does
fire on a successful send and does not on the failure message. -/
theorem c7_delay_fires_without_send :
    (match (process_generate_ticket none none (.ok ()) (.ok ())
        (.error "unused") 3 "AB12CD34"
        { email := "a@b.c", send_email := true, mail_user := none,
          mail_password := none, ticket_details := [("name", "Alice")] }
        []).1 with
      | .ok (.success resp, _) => some resp.email_status
      | _ => none) = some "Not sent" ∧
    delay_triggered "generate_ticket" true (some "Not sent") = true ∧
    delay_triggered "generate_ticket" true
      (some (send_email_with_attachment "a@b.c" "x.png" (.ok ()))) = true ∧
    delay_triggered "generate_ticket" true
      (some (send_email_with_attachment "a@b.c" "x.png"
        (.error "connection refused"))) = false := by
  exact ⟨rfl, by decide, by decide, by decide⟩

theorem pages_flatten_cover (k : Nat) (hk : 1 ≤ k) :
    ∀ (N : Nat) (l : List Ticket), l.length ≤ N →
      ((List.range ((l.length + k - 1) / k)).map
        (fun i => (l.drop (i * k)).take k)).flatten = l := by
  intro N
  induction N with
  | zero =>
    intro l hl
    have : l = [] := List.eq_nil_of_length_eq_zero (Nat.le_zero.mp hl)
    subst this
    simp [Nat.div_eq_of_lt (by omega : 0 + k - 1 < k)]
  | succ N ih =>
    intro l hl
    by_cases hnil : l = []
    · subst hnil
      simp [Nat.div_eq_of_lt (by omega : 0 + k - 1 < k)]
    · have hlen : 1 ≤ l.length := List.length_pos.mpr hnil
      have hn : (l.length + k - 1) / k
          = ((l.drop k).length + k - 1) / k + 1 := by
        have h1 : l.length + k - 1 = (l.length - 1) + k := by omega
        rw [h1, Nat.add_div_right _ hk, List.length_drop]
        rcases Nat.lt_or_ge l.length (k + 1) with hc | hc
        · have e1 : l.length - k = 0 := by omega
          rw [e1, Nat.div_eq_of_lt (by omega : l.length - 1 < k),
            Nat.div_eq_of_lt (by omega : 0 + k - 1 < k)]
        · congr 2
          omega
      rw [hn, List.range_succ_eq_map, List.map_cons, List.flatten_cons,
        List.map_map]
      have hfirst : (l.drop (0 * k)).take k = l.take k := by
        simp
      have hcomp : (List.range (((l.drop k).length + k - 1) / k)).map
          ((fun i => (l.drop (i * k)).take k) ∘ Nat.succ)
          = (List.range (((l.drop k).length + k - 1) / k)).map
            (fun i => ((l.drop k).drop (i * k)).take k) := by
        refine List.map_congr_left ?_
        intro i _
        simp only [Function.comp]
        rw [List.drop_drop]
        congr 2
        rw [Nat.succ_mul]
        omega
      rw [hfirst, hcomp, ih (l.drop k) (by rw [List.length_drop]; omega)]
      exact List.take_append_drop k l

/-- C8: for every store and every `per_page ≥ 1`, the `/tickets` listing
reports the total ticket count, and the concatenation of pages
`1 .. total_pages` enumerates the stored tickets exactly once in natural
(insertion) order — which is creation-time order: whenever the store's
timestamps are nondecreasing, so are each page's. -/
theorem c8_pagination (per_page : Nat) (hpp : 1 ≤ per_page)
    (store : List Ticket) :
    (∀ page, (list_tickets page per_page store).2.1 = store.length) ∧
    ((List.range ((store.length + per_page - 1) / per_page)).map
        (fun i => (list_tickets (i + 1) per_page store).1)).flatten
      = store ∧
    (∀ page, (list_tickets page per_page store).2.2
      = (store.length + per_page - 1) / per_page) ∧
    (∀ page,
      List.Pairwise (fun a b => a.timestamp ≤ b.timestamp) store →
      List.Pairwise (fun a b => a.timestamp ≤ b.timestamp)
        (list_tickets page per_page store).1) := by
  refine ⟨fun _ => rfl, ?_, fun _ => rfl, ?_⟩
  · have h := pages_flatten_cover per_page hpp store.length store le_rfl
    simpa [list_tickets] using h
  · intro page hp
    exact List.Pairwise.sublist
      ((List.take_sublist _ _).trans (List.drop_sublist _ _)) hp

/-- Witness for C8 on a three-ticket store with `per_page = 2`: the count is
3, pages 1 and 2 concatenate to the store, and the first page is ordered. -/
theorem c8_witness :
    (list_tickets 1 2
        [{ ticket_number := "A1", timestamp := 1, ticket_details := [],
           verified := false, attendance_date_time := none },
         { ticket_number := "B2", timestamp := 2, ticket_details := [],
           verified := false, attendance_date_time := none },
         { ticket_number := "C3", timestamp := 3, ticket_details := [],
           verified := false, attendance_date_time := none }]).2.1 = 3 ∧
    ((List.range 2).map
        (fun i => (list_tickets (i + 1) 2
          [{ ticket_number := "A1", timestamp := 1, ticket_details := [],
             verified := false, attendance_date_time := none },
           { ticket_number := "B2", timestamp := 2, ticket_details := [],
             verified := false, attendance_date_time := none },
           { ticket_number := "C3", timestamp := 3, ticket_details := [],
             verified := false, attendance_date_time := none }]).1)).flatten
      = [{ ticket_number := "A1", timestamp := 1, ticket_details := [],
           verified := false, attendance_date_time := none },
         { ticket_number := "B2", timestamp := 2, ticket_details := [],
           verified := false, attendance_date_time := none },
         { ticket_number := "C3", timestamp := 3, ticket_details := [],
           verified := false, attendance_date_time := none }] ∧
    List.Pairwise (fun a b : Ticket => a.timestamp ≤ b.timestamp)
      (list_tickets 1 2
        [{ ticket_number := "A1", timestamp := 1, ticket_details := [],
           verified := false, attendance_date_time := none },
         { ticket_number := "B2", timestamp := 2, ticket_details := [],
           verified := false, attendance_date_time := none },
         { ticket_number := "C3", timestamp := 3, ticket_details := [],
           verified := false, attendance_date_time := none }]).1 := by
  have h := c8_pagination 2 (by decide)
    [{ ticket_number := "A1", timestamp := 1, ticket_details := [],
       verified := false, attendance_date_time := none },
     { ticket_number := "B2", timestamp := 2, ticket_details := [],
       verified := false, attendance_date_time := none },
     { ticket_number := "C3", timestamp := 3, ticket_details := [],
       verified := false, attendance_date_time := none }]
  exact ⟨h.1 1, h.2.1, h.2.2.2 1 (by decide)⟩

theorem intercalate_go_append (s x : String) :
    ∀ (as : List String) (acc : String),
      String.intercalate.go acc s (as ++ [x])
        = String.intercalate.go acc s as ++ s ++ x := by
  intro as
  induction as with
  | nil => intro acc; rfl
  | cons a as ih => intro acc; exact ih (acc ++ s ++ a)

theorem intercalate_append_single (s x : String) (xs : List String)
    (h : xs ≠ []) :
    String.intercalate s (xs ++ [x]) = String.intercalate s xs ++ s ++ x := by
  cases xs with
  | nil => exact absurd rfl h
  | cons a as => exact intercalate_go_append s x as a

/-- C9: the QR payload serialized by issuance is deterministic: the generated
ticket number is merged into the details dict (appended as a new last entry
when the key `ticket_number` is absent), and the payload is one `KEY: value`
line per entry in insertion order with upper-cased keys; in particular, for
details without a `ticket_number` key the payload ends with the
`TICKET_NUMBER` line, and the spec's example evaluates exactly as stated. -/
theorem c9_qr_payload (details : List (String × String)) (tn : String)
    (hnk : ∀ kv ∈ details, kv.1 ≠ "ticket_number") :
    dictSet details "ticket_number" tn = details ++ [("ticket_number", tn)] ∧
    qr_data_str (dictSet details "ticket_number" tn)
      = String.intercalate "\n"
          ((details ++ [("ticket_number", tn)]).map
            (fun kv => pyUpper kv.1 ++ ": " ++ kv.2)) ∧
    (details ≠ [] →
      qr_data_str (dictSet details "ticket_number" tn)
        = qr_data_str details ++ "\n" ++ ("TICKET_NUMBER: " ++ tn)) ∧
    qr_data_str (dictSet [("name", "Alice"), ("event", "Gala")]
        "ticket_number" "AB12CD34")
      = "NAME: Alice\nEVENT: Gala\nTICKET_NUMBER: AB12CD34" := by
  have hset : dictSet details "ticket_number" tn
      = details ++ [("ticket_number", tn)] := by
    have hany : details.any (fun kv => kv.1 == "ticket_number") = false := by
      rw [List.any_eq_false]
      intro kv hkv
      simpa using hnk kv hkv
    simp [dictSet, hany]
  refine ⟨hset, by rw [hset]; rfl, ?_, by decide⟩
  intro hne
  rw [hset]
  unfold qr_data_str
  rw [List.map_append, List.map_singleton,
    intercalate_append_single _ _ _ (by simpa using hne)]
  have hup : pyUpper "ticket_number" ++ ": " ++ tn
      = "TICKET_NUMBER: " ++ tn := by
    rw [String.append_assoc]
    rfl
  rw [hup, String.append_assoc]

/-- Witness for C9 at the spec's example input. -/
theorem c9_witness :
    qr_data_str (dictSet [("name", "Alice"), ("event", "Gala")]
        "ticket_number" "AB12CD34")
      = qr_data_str [("name", "Alice"), ("event", "Gala")] ++ "\n" ++
          ("TICKET_NUMBER: " ++ "AB12CD34") ∧
    qr_data_str (dictSet [("name", "Alice"), ("event", "Gala")]
        "ticket_number" "AB12CD34")
      = "NAME: Alice\nEVENT: Gala\nTICKET_NUMBER: AB12CD34" := by
  have h := c9_qr_payload [("name", "Alice"), ("event", "Gala")] "AB12CD34"
    (by decide)
  exact ⟨h.2.2.1 (by decide), h.2.2.2⟩

/-- C10: when an issuance request sets `send_email` but supplies no mail
credentials and the environment defaults are absent, no dispatch is attempted
(the outcome is independent of the SMTP collaborator), the response's
`email_status` is exactly `"Not sent"`, and issuance still succeeds with
HTTP 200, returning the ticket number and artifact reference. -/
theorem c10_no_credentials (smtp : Except String Unit) (now : Nat)
    (tn : String) (req : GenRequest) (store : List Ticket)
    (hemail : pyStrip req.email ≠ "")
    (hsend : req.send_email = true)
    (huser : req.mail_user = none) (hpass : req.mail_password = none) :
    (∃ resp, (process_generate_ticket none none (.ok ()) (.ok ()) smtp now tn
        req store).1 = .ok (.success resp, 200) ∧
      resp.email_status = "Not sent" ∧
      resp.ticket_number = tn ∧
      resp.ticket_url = "/generated/" ++
        (lookupD (dictSet req.ticket_details "ticket_number" tn)
            "event" "EVENT" ++ "_" ++
         lookupD (dictSet req.ticket_details "ticket_number" tn)
            "roll_no" "UNKNOWN" ++ "_" ++ tn ++ ".png")) ∧
    (∀ smtp₂, process_generate_ticket none none (.ok ()) (.ok ()) smtp₂ now tn
        req store
      = process_generate_ticket none none (.ok ()) (.ok ()) smtp now tn
          req store) := by
  have hcond : ∀ s : Except String Unit,
      process_generate_ticket none none (.ok ()) (.ok ()) s now tn req store
        = (.ok (.success
            { email := pyStrip req.email
              email_status := "Not sent"
              ticket_number := tn
              ticket_url := "/generated/" ++
                (lookupD (dictSet req.ticket_details "ticket_number" tn)
                    "event" "EVENT" ++ "_" ++
                 lookupD (dictSet req.ticket_details "ticket_number" tn)
                    "roll_no" "UNKNOWN" ++ "_" ++ tn ++ ".png")
              qr_data := dictSet req.ticket_details "ticket_number" tn },
            200),
           store ++
            [{ ticket_number := tn, timestamp := now,
               ticket_details := dictSet req.ticket_details "ticket_number" tn,
               verified := false, attendance_date_time := none }]) := by
    intro s
    simp [process_generate_ticket, generate_ticket_qr, hemail, huser, hpass,
      credOr, truthy, save_ticket_in_db]
  constructor
  · exact ⟨{ email := pyStrip req.email
             email_status := "Not sent"
             ticket_number := tn
             ticket_url := "/generated/" ++
               (lookupD (dictSet req.ticket_details "ticket_number" tn)
                   "event" "EVENT" ++ "_" ++
                lookupD (dictSet req.ticket_details "ticket_number" tn)
                   "roll_no" "UNKNOWN" ++ "_" ++ tn ++ ".png")
             qr_data := dictSet req.ticket_details "ticket_number" tn },
           by rw [hcond smtp], rfl, rfl, rfl⟩
  · intro smtp₂
    rw [hcond smtp, hcond smtp₂]

/-- Witness for C10: a concrete request with `send_email = true` and no
usable credentials issues the ticket with `email_status = "Not sent"` and
status 200, whatever the SMTP collaborator would have done. -/
theorem c10_witness :
    (match (process_generate_ticket none none (.ok ()) (.ok ())
        (.error "smtp would fail") 3 "AB12CD34"
        { email := "a@b.c", send_email := true, mail_user := none,
          mail_password := none, ticket_details := [("name", "Alice")] }
        []).1 with
      | .ok (.success resp, c) => some (resp.email_status, resp.ticket_number, c)
      | _ => none) = some ("Not sent", "AB12CD34", 200) := by
  obtain ⟨⟨resp, h1, h2, h3, _⟩, _⟩ := c10_no_credentials
    (.error "smtp would fail") 3 "AB12CD34"
    { email := "a@b.c", send_email := true, mail_user := none,
      mail_password := none, ticket_details := [("name", "Alice")] }
    [] (by decide) rfl rfl rfl
  rw [h1]
  show some (resp.email_status, resp.ticket_number, 200)
    = some ("Not sent", "AB12CD34", 200)
  rw [h2, h3]

end TicketGen
